import Mathlib

/-!
Shallow embedding of the artifact-resolution core of the `m` runtime
provisioner (source files `src/stage4/src/java.rs` and
`src/stage4/src/node.rs`), together with proofs about the claims of the
specification.  Pure decision logic is translated directly; network
fetches are abstracted by passing the fetched catalog as an argument.
-/

/-- Modelled from the spec: the `Os` part of the target descriptor
(`target.rs` is not among the provided sources; the three variants are the
ones named by the spec and matched on in `java.rs`/`node.rs`). -/
inductive Os where
  | Windows
  | Linux
  | Mac
deriving DecidableEq, Repr, Fintype

/-- Modelled from the spec: the `Arch` part of the target descriptor
(the three variants named by the spec and matched on in the sources). -/
inductive Arch where
  | X86_64
  | Arm64
  | Armv7
deriving DecidableEq, Repr, Fintype

/-- Modelled from the spec: the libc/ABI variant of the target descriptor. -/
inductive Variant where
  | Musl
deriving DecidableEq, Repr, Fintype

/-- Modelled from the spec: the immutable target descriptor
`{os, arch, optional variant}`. -/
structure Target where
  os : Os
  arch : Arch
  variant : Option Variant
deriving DecidableEq, Repr, Fintype

namespace Str

/-! Executable models of the Rust standard string operations used by the
sources, over `String.data`, so that the kernel can evaluate them. -/

/-- Model of Rust ASCII whitespace (the characters `str::trim` strips in
the inputs considered here). -/
def isWsp (c : Char) : Bool :=
  c = ' ' || c = '\t' || c = '\n' || c = '\r'

/-- Model of Rust `str::trim`. -/
def trim (s : String) : String :=
  String.mk (((s.data.dropWhile isWsp).reverse.dropWhile isWsp).reverse)

/-- Helper for `Str.contains`: substring occurrence over character lists. -/
def containsAux (pat : List Char) : List Char → Bool
  | [] => pat.isEmpty
  | c :: t => pat.isPrefixOf (c :: t) || containsAux pat t

/-- Model of Rust `str::contains` (substring occurrence). -/
def contains (s pat : String) : Bool :=
  containsAux pat.data s.data

/-- Model of Rust `str::starts_with`. -/
def startsWith (s pre : String) : Bool :=
  pre.data.isPrefixOf s.data

/-- Drop the first `n` characters of a string. -/
def drop (s : String) (n : Nat) : String :=
  String.mk (s.data.drop n)

/-- Split a character list on a separator character. -/
def splitOnChar (sep : Char) : List Char → List (List Char)
  | [] => [[]]
  | c :: t =>
    match splitOnChar sep t with
    | [] => [[]]
    | h :: r => if c = sep then [] :: h :: r else (c :: h) :: r

/-- Model of Rust `str::split` with a one-character separator. -/
def splitOn (s : String) (sep : Char) : List String :=
  (splitOnChar sep s.data).map String.mk

/-- Model of parsing a decimal numeral (`u64::from_str` on an all-digit
token): `some` exactly when the string is nonempty and all digits. -/
def toNat? (s : String) : Option Nat :=
  if s.data.isEmpty then none
  else if s.data.all Char.isDigit then
    some (s.data.foldl (fun a c => a * 10 + (c.toNat - 48)) 0)
  else none

end Str

namespace Semver

/-! Model of the external `semver` crate (Cargo semantics) as used by
`node.rs`: requirement parsing and matching, restricted to release
versions without pre-release/build identifiers and to requirement strings
made of comma-separated comparators over plain dotted numerals (the
fragment exercised by this program). -/

/-- A parsed semantic version (release versions only). -/
structure Version where
  major : Nat
  minor : Nat
  patch : Nat
deriving DecidableEq, Repr

/-- Comparator operators of the `semver` crate. -/
inductive Op where
  | Exact
  | Greater
  | GreaterEq
  | Less
  | LessEq
  | Tilde
  | Caret
  | Wildcard
deriving DecidableEq, Repr

/-- One comparator of a version requirement, as in the `semver` crate. -/
structure Comparator where
  op : Op
  major : Nat
  minor : Option Nat
  patch : Option Nat
deriving DecidableEq, Repr

/-- A version requirement: the conjunction of its comparators. -/
abbrev VersionReq := List Comparator

/-- `VersionReq::default()`: the empty comparator list, which matches
every version (displayed `*`). -/
def default : VersionReq := []

/-- `Comparator` matching, following `semver`'s `eval.rs` for release
versions. -/
def matchesComparator (cmp : Comparator) (ver : Version) : Bool :=
  let exact :=
    ver.major = cmp.major
      && (match cmp.minor with | none => true | some m => ver.minor = m)
      && (match cmp.patch with | none => true | some p => ver.patch = p)
  let greater :=
    if ver.major ≠ cmp.major then decide (ver.major > cmp.major)
    else match cmp.minor with
      | none => false
      | some m =>
        if ver.minor ≠ m then decide (ver.minor > m)
        else match cmp.patch with
          | none => false
          | some p => decide (ver.patch > p)
  let less :=
    if ver.major ≠ cmp.major then decide (ver.major < cmp.major)
    else match cmp.minor with
      | none => false
      | some m =>
        if ver.minor ≠ m then decide (ver.minor < m)
        else match cmp.patch with
          | none => false
          | some p => decide (ver.patch < p)
  match cmp.op with
  | Op.Exact => exact
  | Op.Greater => greater
  | Op.GreaterEq => exact || greater
  | Op.Less => less
  | Op.LessEq => exact || less
  | Op.Tilde =>
    ver.major = cmp.major
      && (match cmp.minor with | none => true | some m => ver.minor = m)
      && (match cmp.patch with | none => true | some p => ver.patch ≥ p)
  | Op.Caret =>
    ver.major = cmp.major
      && (match cmp.minor with
          | none => true
          | some m =>
            match cmp.patch with
            | none => if cmp.major > 0 then ver.minor ≥ m else ver.minor = m
            | some p =>
              if cmp.major > 0 then
                if ver.minor ≠ m then ver.minor > m else ver.patch ≥ p
              else if m > 0 then
                ver.minor = m && ver.patch ≥ p
              else
                ver.minor = m && ver.patch = p)
  | Op.Wildcard =>
    ver.major = cmp.major
      && (match cmp.minor with | none => true | some m => ver.minor = m)

/-- `VersionReq::matches`: every comparator must match (`matches` is a
Lean keyword, hence the name `reqMatches`). -/
def reqMatches (req : VersionReq) (ver : Version) : Bool :=
  req.all (fun c => matchesComparator c ver)

/-- Parse one comparator: an optional operator prefix followed by a dotted
numeral; a bare version defaults to the caret operator (Cargo semantics). -/
def parseComparator (s : String) : Option Comparator :=
  let t := Str.trim s
  let (op, rest) :=
    if Str.startsWith t ">=" then (Op.GreaterEq, Str.drop t 2)
    else if Str.startsWith t "<=" then (Op.LessEq, Str.drop t 2)
    else if Str.startsWith t ">" then (Op.Greater, Str.drop t 1)
    else if Str.startsWith t "<" then (Op.Less, Str.drop t 1)
    else if Str.startsWith t "=" then (Op.Exact, Str.drop t 1)
    else if Str.startsWith t "~" then (Op.Tilde, Str.drop t 1)
    else if Str.startsWith t "^" then (Op.Caret, Str.drop t 1)
    else (Op.Caret, t)
  match (Str.splitOn rest '.').map Str.toNat? with
  | [some mj] => some ⟨op, mj, none, none⟩
  | [some mj, some mi] => some ⟨op, mj, some mi, none⟩
  | [some mj, some mi, some pa] => some ⟨op, mj, some mi, some pa⟩
  | _ => none

/-- Model of `VersionReq::parse`: comma-separated comparators; the empty
or unparsable input is an error (`none`). -/
def parse (s : String) : Option VersionReq :=
  if Str.trim s = "" then none
  else (Str.splitOn s ',').mapM parseComparator

end Semver

namespace Java

/-- The `Root2` record of `java.rs`: one element of the provider-A
(Azul) JSON catalog. -/
structure Root2 where
  abi : String
  arch : String
  bundle_type : String
  cpu_gen : List String
  ext : String
  features : List String
  hw_bitness : String
  id : Int
  java_version : List Int
  javafx : Bool
  jdk_version : List Int
  latest : Bool
  name : String
  openjdk_build_number : Option Int
  os : String
  release_status : String
  support_term : String
  url : String
deriving DecidableEq, Repr

/-- The `node_os` computation inside `get_java_download_url`'s closure:
classify the record's free-text OS field. -/
def node_os (s : String) : Os :=
  if s = "windows" then Os.Windows
  else if Str.contains s "linux" then Os.Linux
  else Os.Mac

/-- The `ext` computation inside `get_java_download_url`'s closure: the
file extension required for the target's OS. -/
def ext_for (os : Os) : String :=
  match os with
  | Os.Windows => "zip"
  | _ => "tar.gz"

/-- The `node_arch` computation inside `get_java_download_url`'s closure:
canonical architecture from the record's `(arch, hw_bitness)` pair. -/
def node_arch (arch hw_bitness : String) : Option Arch :=
  match arch, hw_bitness with
  | "x86", "64" => some Arch.X86_64
  | "arm", "64" => some Arch.Armv7
  | _, _ => none

/-- The predicate of the `find` in `get_java_download_url`: whether one
catalog record matches the target.  The source compares `target.variant`
with `Variant::Musl`; with the optional variant of the target model this
is the test `target.variant ≠ some Variant.Musl`. -/
def matchesRecord (target : Target) (node : Root2) : Bool :=
  let nos := node_os node.os
  let ext := ext_for target.os
  let narch := node_arch node.arch node.hw_bitness
  let variant_check :=
    decide (target.variant ≠ some Variant.Musl) || Str.contains node.os "musl"
  match narch with
  | some a =>
    variant_check && decide (nos = target.os) && decide (a = target.arch)
      && decide (node.ext = ext)
  | none => false

/-- `get_java_download_url` of `java.rs`, with the fetched catalog passed
as an argument: the first matching record's URL.  The source unwraps the
result (panics when no record matches); the failure is modelled as
`none`. -/
def get_java_download_url (root : List Root2) (target : Target) : Option String :=
  (root.find? (fun node => matchesRecord target node)).map Root2.url

end Java

namespace Node

/-- The `LTS` union of `node.rs`: a string (LTS codename) or a boolean. -/
inductive LTS where
  | Str (s : String)
  | Flag (b : Bool)
deriving DecidableEq, Repr

/-- The `Root2` record of `node.rs`: one element of the provider-C
(unofficial builds) JSON catalog. -/
structure Root2 where
  version : String
  date : String
  files : List String
  npm : String
  v8 : String
  uv : String
  zlib : String
  openssl : String
  modules : String
  lts : LTS
  security : Bool
deriving DecidableEq, Repr

/-- Modelled from the spec: the `Download` record handed onward
(`executor.rs` is not among the provided sources) — a fully-qualified URL
plus a version label, as built by `Download::new(url, version)`. -/
structure Download where
  url : String
  version : String
deriving DecidableEq, Repr

/-- The `file` computation of `unofficial_downloads`: the provider-C file
suffix expected for a target. -/
def unofficial_file (target : Target) : String :=
  match target.os, target.arch, target.variant with
  | Os.Windows, Arch.Arm64, _ => "win-arm64-zip"
  | Os.Windows, _, _ => "win-x64-zip"
  | Os.Linux, Arch.Armv7, some Variant.Musl => "linux-armv7l-musl"
  | Os.Linux, Arch.Arm64, some Variant.Musl => "linux-arm64-musl"
  | Os.Linux, Arch.X86_64, some Variant.Musl => "linux-x64-musl"
  | Os.Linux, Arch.Armv7, _ => "linux-armv7l"
  | Os.Linux, Arch.Arm64, _ => "linux-arm64"
  | _, _, _ => "linux-x64"

/-- The `file_fix` computation of `unofficial_downloads`: turn the file
suffix into the archive file name part. -/
def file_fix (file : String) : String :=
  if file.endsWith "-zip" then file.replace "-zip" ".zip"
  else file ++ ".tar.gz"

/-- `unofficial_downloads` of `node.rs`, with the fetched catalog passed
as an argument: iterate the catalog **reversed** (`root.iter().rev()`),
keep records whose file set holds the expected suffix, and build one
download per record. -/
def unofficial_downloads (root : List Root2) (target : Target) : List Download :=
  let file := unofficial_file target
  (root.reverse.filter (fun r => r.files.contains file)).map (fun r =>
    { url := "https://unofficial-builds.nodejs.org/download/release/"
        ++ r.version ++ "/node-" ++ r.version ++ "-" ++ file_fix file,
      version := r.version })

/-- The two providers `get_node_urls` can route to. -/
inductive Provider where
  | official
  | unofficial
deriving DecidableEq, Repr

/-- The routing decision of `get_node_urls` in `node.rs`, with the two
awaited fetches abstracted to the provider they would query. -/
def get_node_urls (target : Target) : Provider :=
  match target.os, target.arch, target.variant with
  | Os.Linux, _, some Variant.Musl => Provider.unofficial
  | Os.Windows, Arch.Arm64, _ => Provider.unofficial
  | _, _, _ => Provider.official

/-- The manifest state seen by `get_package_version`: the `engines` map of
a located, readable `package.json` (a failed locate or read is modelled as
the manifest being absent). -/
structure PackageJson where
  engines : Option (List (String × String))
deriving DecidableEq, Repr

/-- The `Regex::new("^v").replace(...)` step of `get_package_version`:
strip one leading `v`. -/
def stripLeadingV (s : String) : String :=
  if Str.startsWith s "v" then Str.drop s 1 else s

/-- The `.nvmrc` branch of `get_package_version`: strip a leading `v`,
trim, and keep the parse result only when it succeeds. -/
def nvmrcVersion (nvmrc : Option String) : Option Semver.VersionReq :=
  match nvmrc with
  | some content =>
    match Semver.parse (Str.trim (stripLeadingV content)) with
    | some ver => some ver
    | none => none
  | none => none

/-- `get_package_version` of `node.rs`, with the filesystem reads passed
as arguments (`manifest`: the located package manifest, if any; `nvmrc`:
the `.nvmrc` content, if readable).  When the manifest has an `engines`
map, return its `node` entry parsed, falling back to the default (match
everything) requirement; otherwise consult `.nvmrc`. -/
def get_package_version (manifest : Option PackageJson) (nvmrc : Option String) :
    Option Semver.VersionReq :=
  match manifest with
  | some json =>
    match json.engines with
    | some engines =>
      some ((Semver.parse ((engines.lookup "node").getD "")).getD Semver.default)
    | none => nvmrcVersion nvmrc
  | none => nvmrcVersion nvmrc

end Node

example : Str.contains "windows" "linux" = false := by decide
example : Str.contains "alpine-linux-musl" "linux" = true := by decide
example : Str.trim " v18.2.0\n" = "v18.2.0" := by decide
example : Semver.parse "18.2.0" = some [⟨Semver.Op.Caret, 18, some 2, some 0⟩] := by decide
example : Semver.parse "banana" = none := by decide
example : Semver.parse "" = none := by decide
example :
    Node.get_package_version none (some "v18.2.0")
      = some [⟨Semver.Op.Caret, 18, some 2, some 0⟩] := by decide

/-! Concrete targets and catalog records used by witnesses and
counterexamples. -/

/-- A plain glibc Linux x86-64 target. -/
def tLinuxX64 : Target := ⟨Os.Linux, Arch.X86_64, none⟩

/-- A musl Linux x86-64 target. -/
def tMuslLinux : Target := ⟨Os.Linux, Arch.X86_64, some Variant.Musl⟩

/-- A Linux ARM64 target. -/
def tLinuxArm64 : Target := ⟨Os.Linux, Arch.Arm64, none⟩

/-- A provider-A record matching `tLinuxX64`. -/
def javaRecLinux : Java.Root2 :=
  { abi := "any", arch := "x86", bundle_type := "jdk", cpu_gen := [],
    ext := "tar.gz", features := [], hw_bitness := "64", id := 1,
    java_version := [17], javafx := false, jdk_version := [17],
    latest := true, name := "zulu17", openjdk_build_number := none,
    os := "linux", release_status := "ga", support_term := "lts",
    url := "u-linux" }

/-- A second provider-A record matching `tLinuxX64`, later in the catalog. -/
def javaRecLinux2 : Java.Root2 :=
  { javaRecLinux with id := 2, url := "u-linux2" }

/-- A musl-tagged provider-A Linux record (arch and extension as for
`tLinuxX64`). -/
def javaRecMusl : Java.Root2 :=
  { javaRecLinux with id := 3, os := "linux-musl", url := "u-musl" }

/-- A provider-A record whose `(arch, hw_bitness)` pair is unrecognized. -/
def javaRecPpc : Java.Root2 :=
  { javaRecLinux with id := 4, arch := "ppc", url := "u-ppc" }

/-- A provider-C record for version 20. -/
def nodeRec20 : Node.Root2 :=
  { version := "v20.0.0", date := "2023-04-18", files := ["linux-x64", "win-x64-zip"],
    npm := "9.6.4", v8 := "11.3", uv := "1.44", zlib := "1.2", openssl := "3.0",
    modules := "115", lts := Node.LTS.Flag false, security := false }

/-- A provider-C record for version 18 (lower than `nodeRec20`). -/
def nodeRec18 : Node.Root2 :=
  { nodeRec20 with
    version := "v18.0.0", date := "2022-04-19",
    lts := Node.LTS.Str "Hydrogen" }

/-- C1 counterexample: a provider-C catalog pre-sorted in descending
version order (`v20.0.0` before `v18.0.0`) is normalized to the
**ascending** list `[v18.0.0, v20.0.0]`: the source order is not
preserved and the first element is not the highest version. -/
theorem C1_order_counterexample :
    (Node.unofficial_downloads [nodeRec20, nodeRec18] tLinuxX64).map
        (fun d => d.version) = ["v18.0.0", "v20.0.0"]
    ∧ (Node.unofficial_downloads [nodeRec20, nodeRec18] tLinuxX64).map
        (fun d => d.version) ≠ ["v20.0.0", "v18.0.0"] := by
  decide

/-- C1 (amended): the provider-C normalizer iterates the catalog reversed,
so the normalized download list carries the matching records of the
catalog in **reverse** catalog order; a pre-sorted descending catalog
therefore yields an ascending list whose first element is the lowest
matching version. -/
theorem C1_unofficial_reverses_order :
    ∀ (root : List Node.Root2) (t : Target),
      (Node.unofficial_downloads root t).map (fun d => d.version)
        = ((root.filter (fun r =>
              r.files.contains (Node.unofficial_file t))).map
            (fun r => r.version)).reverse := by
  intro root t
  simp [Node.unofficial_downloads, List.filter_reverse, List.map_reverse]

/-- C2 counterexample: the provider-A architecture mapping sends the pair
`("arm", "64")` to `Armv7`, not to `Arm64` as the claim states. -/
theorem C2_arm64_mapping_counterexample :
    Java.node_arch "arm" "64" = some Arch.Armv7
    ∧ Java.node_arch "arm" "64" ≠ some Arch.Arm64 := by
  decide

/-- C2 (amended): the mapping sends `("x86", "64")` to `X86_64` and
`("arm", "64")` to `Armv7`; a record with any other pair is dropped from
consideration (it never matches) rather than causing an error. -/
theorem C2_arch_mapping :
    Java.node_arch "x86" "64" = some Arch.X86_64
    ∧ Java.node_arch "arm" "64" = some Arch.Armv7
    ∧ ∀ (t : Target) (r : Java.Root2),
        Java.node_arch r.arch r.hw_bitness = none →
        Java.matchesRecord t r = false := by
  refine ⟨by decide, by decide, ?_⟩
  intro t r h
  simp [Java.matchesRecord, h]

/-- C2 witness: the amended theorem applied to a record with the
unrecognized pair `("ppc", "64")`. -/
theorem C2_arch_mapping_witness :
    Java.node_arch "ppc" "64" = none
    ∧ Java.matchesRecord tLinuxX64 javaRecPpc = false :=
  ⟨by decide, C2_arch_mapping.2.2 tLinuxX64 javaRecPpc (by decide)⟩

/-- C3: Node download routing is total and selects exactly one provider
per target: a musl Linux target or a Windows ARM64 target routes to the
unofficial provider, and every other triple routes to the official
listing. -/
theorem C3_node_routing_total :
    ∀ t : Target,
      (Node.get_node_urls t = Node.Provider.unofficial
        ↔ ((t.os = Os.Linux ∧ t.variant = some Variant.Musl)
            ∨ (t.os = Os.Windows ∧ t.arch = Arch.Arm64)))
      ∧ (Node.get_node_urls t = Node.Provider.official
        ↔ ¬ ((t.os = Os.Linux ∧ t.variant = some Variant.Musl)
            ∨ (t.os = Os.Windows ∧ t.arch = Arch.Arm64))) := by
  decide

/-- C4: provider-A selection is first-match-wins in catalog order: with
every record before `r` non-matching and `r` matching, selection returns
`r`'s URL whatever follows; and when no record matches, nothing (in
particular no near-match) is returned. -/
theorem C4_java_first_match :
    (∀ (t : Target) (l1 l2 : List Java.Root2) (r : Java.Root2),
        (∀ r' ∈ l1, Java.matchesRecord t r' = false) →
        Java.matchesRecord t r = true →
        Java.get_java_download_url (l1 ++ r :: l2) t = some r.url)
    ∧ (∀ (t : Target) (root : List Java.Root2),
        (∀ r ∈ root, Java.matchesRecord t r = false) →
        Java.get_java_download_url root t = none) := by
  constructor
  · intro t l1 l2 r
    induction l1 with
    | nil =>
      intro _ hr
      unfold Java.get_java_download_url
      rw [List.nil_append, List.find?_cons_of_pos _ hr]
      rfl
    | cons a as ih =>
      intro h1 hr
      have ha : ¬ ((fun node => Java.matchesRecord t node) a = true) := by
        simp [h1 a (by simp)]
      unfold Java.get_java_download_url
      rw [List.cons_append, List.find?_cons_of_neg _ ha]
      exact ih (fun r' hr' => h1 r' (List.mem_cons_of_mem a hr')) hr
  · intro t root h
    have : root.find? (fun node => Java.matchesRecord t node) = none :=
      List.find?_eq_none.mpr (fun x hx => by simp [h x hx])
    simp [Java.get_java_download_url, this]

/-- C4 witness: the theorem applied to a catalog with a non-matching
record first, then two matching records, and to an all-non-matching
catalog. -/
theorem C4_java_first_match_witness :
    Java.get_java_download_url [javaRecPpc, javaRecLinux, javaRecLinux2] tLinuxX64
        = some javaRecLinux.url
    ∧ Java.get_java_download_url [javaRecPpc] tLinuxX64 = none :=
  ⟨C4_java_first_match.1 tLinuxX64 [javaRecPpc] [javaRecLinux2] javaRecLinux
      (by decide) (by decide),
   C4_java_first_match.2 tLinuxX64 [javaRecPpc] (by decide)⟩

/-- C5 counterexample: a provider-A catalog holding only a musl-tagged
Linux record, queried with a non-musl Linux target whose arch and
extension match, **succeeds** (returning the musl artifact) instead of
failing as the claim states. -/
theorem C5_musl_catalog_counterexample :
    Str.contains javaRecMusl.os "musl" = true
    ∧ Str.contains javaRecMusl.os "linux" = true
    ∧ tLinuxX64.variant ≠ some Variant.Musl
    ∧ Java.get_java_download_url [javaRecMusl] tLinuxX64 = some "u-musl" := by
  decide

/-- C5 (amended): a non-musl target accepts musl-tagged artifacts, so a
provider-A catalog whose first record is a musl-tagged Linux record with
matching arch and extension yields that record's artifact for a non-musl
Linux target (no failure). -/
theorem C5_nonmusl_accepts_musl :
    ∀ (t : Target) (r : Java.Root2) (rest : List Java.Root2),
      t.os = Os.Linux →
      t.variant ≠ some Variant.Musl →
      Str.contains r.os "linux" = true →
      Java.node_arch r.arch r.hw_bitness = some t.arch →
      r.ext = "tar.gz" →
      Java.get_java_download_url (r :: rest) t = some r.url := by
  intro t r rest hos hv hlin harch hext
  have hw : ¬ (r.os = "windows") := by
    intro h
    rw [h] at hlin
    exact absurd hlin (by decide)
  have hmatch : Java.matchesRecord t r = true := by
    simp [Java.matchesRecord, harch, Java.node_os, hw, hlin, hos,
      Java.ext_for, hext, hv]
  simp [Java.get_java_download_url, List.find?_cons_of_pos _ hmatch]

/-- C5 witness: the amended theorem applied to the musl-tagged record and
the plain Linux target. -/
theorem C5_nonmusl_accepts_musl_witness :
    Java.get_java_download_url [javaRecMusl] tLinuxX64 = some javaRecMusl.url :=
  C5_nonmusl_accepts_musl tLinuxX64 javaRecMusl [] rfl (by decide) (by decide)
    (by decide) (by decide)

/-- C6: the variant rule of provider-A matching: a Musl target only
accepts records whose OS string contains "musl"; for a non-musl target
the record's musl-ness has no effect — any change of the OS string that
keeps its OS classification keeps the match result. -/
theorem C6_variant_rule :
    ∀ (t : Target) (r : Java.Root2),
      (t.variant = some Variant.Musl → Java.matchesRecord t r = true →
        Str.contains r.os "musl" = true)
      ∧ (t.variant ≠ some Variant.Musl → ∀ s : String,
          Java.node_os s = Java.node_os r.os →
          Java.matchesRecord t { r with os := s } = Java.matchesRecord t r) := by
  intro t r
  constructor
  · intro hv hm
    unfold Java.matchesRecord at hm
    cases hn : Java.node_arch r.arch r.hw_bitness with
    | none => rw [hn] at hm; simp at hm
    | some a =>
      rw [hn] at hm
      simp only [hv, Bool.and_eq_true, decide_eq_true_eq] at hm
      have := hm.1.1.1
      simpa using this
  · intro hv s hs
    unfold Java.matchesRecord
    simp only [hs]
    have : decide (t.variant ≠ some Variant.Musl) = true := by
      simpa using hv
    simp [this]

/-- C6 witness: a Musl target that matched a record forces a musl OS tag,
and for a non-musl target replacing the OS string `"linux"` by the
musl-tagged `"linux-musl"` leaves the match result unchanged. -/
theorem C6_variant_rule_witness :
    Str.contains javaRecMusl.os "musl" = true
    ∧ Java.matchesRecord tLinuxX64 { javaRecLinux with os := "linux-musl" }
        = Java.matchesRecord tLinuxX64 javaRecLinux :=
  ⟨(C6_variant_rule tMuslLinux javaRecMusl).1 rfl (by decide),
   (C6_variant_rule tLinuxX64 javaRecLinux).2 (by decide) "linux-musl" (by decide)⟩

/-- C7 counterexample: the dotfile token `v18.2.0` parses (after marker
stripping) to the caret requirement `^18.2.0`, which accepts `18.2.0`
**and also** the distinct version `18.3.0`, so the resolved constraint is
not equivalent to exactly `18.2.0`. -/
theorem C7_exact_version_counterexample :
    Node.get_package_version none (some "v18.2.0")
        = some [⟨Semver.Op.Caret, 18, some 2, some 0⟩]
    ∧ Semver.reqMatches [⟨Semver.Op.Caret, 18, some 2, some 0⟩] ⟨18, 2, 0⟩ = true
    ∧ Semver.reqMatches [⟨Semver.Op.Caret, 18, some 2, some 0⟩] ⟨18, 3, 0⟩ = true
    ∧ (⟨18, 3, 0⟩ : Semver.Version) ≠ ⟨18, 2, 0⟩ := by
  decide

/-- C7 (amended): with no manifest constraint, a dotfile containing
`v18.2.0` resolves, after stripping the leading `v`, to the caret
requirement `^18.2.0`: it accepts exactly the versions with major 18 and
minor at least 2 (that is, `>=18.2.0, <19.0.0`), not only `18.2.0`. -/
theorem C7_dotfile_caret_semantics :
    Node.get_package_version none (some "v18.2.0")
        = some [⟨Semver.Op.Caret, 18, some 2, some 0⟩]
    ∧ ∀ v : Semver.Version,
        Semver.reqMatches [⟨Semver.Op.Caret, 18, some 2, some 0⟩] v = true
          ↔ v.major = 18 ∧ 2 ≤ v.minor := by
  refine ⟨by decide, ?_⟩
  intro v
  obtain ⟨mj, mi, pa⟩ := v
  simp only [Semver.reqMatches, Semver.matchesComparator, List.all_cons,
    List.all_nil, Bool.and_true]
  by_cases hmi : mi = 2
  · simp [hmi]
  · simp [hmi]
    omega

/-- C7 witness: the amended theorem accepts the version `18.9.9`. -/
theorem C7_dotfile_caret_semantics_witness :
    Semver.reqMatches [⟨Semver.Op.Caret, 18, some 2, some 0⟩] ⟨18, 9, 9⟩ = true :=
  (C7_dotfile_caret_semantics.2 ⟨18, 9, 9⟩).mpr (by decide)

/-- C8 counterexample: with a located manifest whose `engines.node` is the
unparsable `banana`, resolution yields `some` (the default match-all
requirement), not `None` as the claim states. -/
theorem C8_manifest_counterexample :
    Semver.parse "banana" = none
    ∧ Node.get_package_version (some ⟨some [("node", "banana")]⟩) none
        = some Semver.default
    ∧ Node.get_package_version (some ⟨some [("node", "banana")]⟩) none
        ≠ none := by
  decide

/-- C8 (amended): unparsable constraint sources never surface an error,
but the two sources degrade differently: an unparsable manifest
`engines.node` entry yields `some` of the default match-all requirement
(a wildcard, not `None`), while an unparsable dotfile yields `None`; the
default requirement accepts every version. -/
theorem C8_unparsable_fallback :
    ∀ (eng : List (String × String)) (nvmrc : Option String) (s : String),
      (Semver.parse ((eng.lookup "node").getD "") = none →
        Node.get_package_version (some ⟨some eng⟩) nvmrc = some Semver.default)
      ∧ (Semver.parse (Str.trim (Node.stripLeadingV s)) = none →
        Node.get_package_version none (some s) = none)
      ∧ (∀ v : Semver.Version, Semver.reqMatches Semver.default v = true) := by
  intro eng nvmrc s
  refine ⟨?_, ?_, ?_⟩
  · intro h
    simp [Node.get_package_version, h]
  · intro h
    simp [Node.get_package_version, Node.nvmrcVersion, h]
  · intro v
    rfl

/-- C8 witness: the amended theorem applied to the unparsable manifest
entry `horse` and the unparsable dotfile content `banana`. -/
theorem C8_unparsable_fallback_witness :
    Node.get_package_version (some ⟨some [("node", "horse")]⟩) (some "v1.0.0")
        = some Semver.default
    ∧ Node.get_package_version none (some "banana") = none :=
  ⟨(C8_unparsable_fallback [("node", "horse")] (some "v1.0.0") "banana").1
      (by decide),
   (C8_unparsable_fallback [("node", "horse")] (some "v1.0.0") "banana").2.1
      (by decide)⟩

/-- The provider-A architecture mapping never produces `Arm64`. -/
theorem java_node_arch_ne_arm64 (a hw : String) :
    Java.node_arch a hw ≠ some Arch.Arm64 := by
  unfold Java.node_arch
  split <;> simp

/-- C9: Java resolution matches no record for an ARM64 target: the
`(arch, hw_bitness)` mapping only ever yields `X86_64` or `Armv7`, so
selection fails whatever the catalog holds. -/
theorem C9_arm64_never_matches :
    ∀ (root : List Java.Root2) (t : Target),
      t.arch = Arch.Arm64 → Java.get_java_download_url root t = none := by
  intro root t ht
  have hall : ∀ r ∈ root, ¬ ((fun node => Java.matchesRecord t node) r = true) := by
    intro r _
    unfold Java.matchesRecord
    cases hn : Java.node_arch r.arch r.hw_bitness with
    | none => simp [hn]
    | some a =>
      have haa : a ≠ Arch.Arm64 := by
        intro h
        rw [h] at hn
        exact java_node_arch_ne_arm64 _ _ hn
      simp [hn, ht, haa]
  have : root.find? (fun node => Java.matchesRecord t node) = none :=
    List.find?_eq_none.mpr hall
  simp [Java.get_java_download_url, this]

/-- C9 witness: the theorem applied to a catalog with an otherwise
matching record and a Linux ARM64 target. -/
theorem C9_arm64_never_matches_witness :
    Java.get_java_download_url [javaRecLinux, javaRecMusl] tLinuxArm64 = none :=
  C9_arm64_never_matches [javaRecLinux, javaRecMusl] tLinuxArm64 rfl

/-- C10: once a manifest with an `engines` map is located, the dotfile is
never consulted (the result does not depend on it) and the result is
always `some` constraint; with no `node` entry, or an unparsable one, the
result is the default match-all requirement rather than `None`. -/
theorem C10_engines_short_circuit :
    ∀ (eng : List (String × String)) (nv nv' : Option String),
      Node.get_package_version (some ⟨some eng⟩) nv
          = Node.get_package_version (some ⟨some eng⟩) nv'
      ∧ (Node.get_package_version (some ⟨some eng⟩) nv).isSome = true
      ∧ (eng.lookup "node" = none →
          Node.get_package_version (some ⟨some eng⟩) nv = some Semver.default)
      ∧ (∀ s, eng.lookup "node" = some s → Semver.parse s = none →
          Node.get_package_version (some ⟨some eng⟩) nv = some Semver.default) := by
  intro eng nv nv'
  refine ⟨rfl, rfl, ?_, ?_⟩
  · intro h
    have hp : Semver.parse "" = none := by decide
    simp [Node.get_package_version, h, hp]
  · intro s hs hp
    simp [Node.get_package_version, hs, hp]

/-- C10 witness: the theorem applied to an `engines` map without a `node`
entry, with and without a dotfile present. -/
theorem C10_engines_short_circuit_witness :
    Node.get_package_version (some ⟨some [("npm", "9")]⟩) (some "v1.2.3")
        = Node.get_package_version (some ⟨some [("npm", "9")]⟩) none
    ∧ (Node.get_package_version (some ⟨some [("npm", "9")]⟩) (some "v1.2.3")).isSome
        = true
    ∧ Node.get_package_version (some ⟨some [("npm", "9")]⟩) (some "v1.2.3")
        = some Semver.default :=
  ⟨(C10_engines_short_circuit [("npm", "9")] (some "v1.2.3") none).1,
   (C10_engines_short_circuit [("npm", "9")] (some "v1.2.3") none).2.1,
   (C10_engines_short_circuit [("npm", "9")] (some "v1.2.3") none).2.2.1
      (by decide)⟩
